import Mathlib

/-
  Verification of the ATC_MiThermometer Arduino library advertising decoders,
  settings codec and RF TX power table.

  The development shallowly embeds the two revisions of the C++ source
  (src/ATC_MiThermometer.cpp and src/src/ATC_MiThermometer.cpp).  Byte buffers
  are modelled as List Nat whose members are below 256; C float values are
  modelled as exact rationals; C integer casts are modelled by explicit
  wrap and two-complement conversion functions.  Where the two revisions agree
  a single definition is given; where they differ both are embedded.
-/

set_option maxRecDepth 20000

unseal Rat.mul Rat.add Rat.inv Rat.ofScientific Rat.sub

/-- Conversion of an int value to int8_t, as static_cast of int8_t does on
two-complement hardware: wrap modulo 256 into the range [-128, 127]. -/
def i8ofNat (n : Nat) : Int :=
  if n % 256 < 128 then ((n % 256 : Nat) : Int) else ((n % 256 : Nat) : Int) - 256

/-- Conversion of an int value to int16_t: wrap modulo 65536 into the range
[-32768, 32767]. -/
def i16ofNat (n : Nat) : Int :=
  if n % 65536 < 32768 then ((n % 65536 : Nat) : Int) else ((n % 65536 : Nat) : Int) - 65536

/-- Truncation of a rational toward zero, the rounding a C float-to-integer
cast performs. -/
def ratTrunc (q : ℚ) : Int := Int.tdiv q.num (q.den : Int)

/-- Conversion of a float value to uint8_t: truncate toward zero, then wrap
modulo 256 (two-complement convention for the out-of-range cases). -/
def u8ofRat (q : ℚ) : Nat := ((ratTrunc q).emod 256).toNat

/-- The cached per-device measurement record of ATC_MiThermometer: fields
temperature, temperature_precise, humidity (C float, modelled as rationals),
battery_level (uint8_t) and battery_mv (uint16_t). -/
structure Reading where
  temperature : ℚ
  temperature_precise : ℚ
  humidity : ℚ
  battery_level : Nat
  battery_mv : Nat
deriving DecidableEq

/-- ATC_MiThermometer::parseAdvertisingDataATC1441 (identical in both
revisions): format-A decoder.  Packets shorter than 18 bytes are dropped with
no field updated; otherwise big-endian signed temperature at bytes 10..11
scaled by 0.1, humidity byte 12, battery level byte 13, big-endian battery
millivolts at bytes 14..15.  The narrowing of the int expression into the
uint16_t field battery_mv is the modulo 65536 wrap. -/
def parseAdvertisingDataATC1441 (st : Reading) (data : List Nat) : Reading :=
  if data.length < 18 then st
  else
    { st with
      temperature := (i16ofNat ((data.getD 10 0 <<< 8) ||| data.getD 11 0) : ℚ) * 0.1
      humidity := (data.getD 12 0 : ℚ)
      battery_level := data.getD 13 0
      battery_mv := ((data.getD 14 0 <<< 8) ||| data.getD 15 0) % 65536 }

/-- ATC_MiThermometer::parseAdvertisingDataPVVX (identical in both revisions):
format-B decoder.  Requires length at least 19, declared size byte 18, AD type
byte 0x16 and little-endian service UUID 0x181A; any failing check aborts with
no field updated.  On success: little-endian signed temperature at bytes
10..11 scaled by 0.01 into temperature_precise, little-endian humidity at
bytes 12..13 scaled by 0.01, battery millivolts at bytes 14..15, battery
level byte 16. -/
def parseAdvertisingDataPVVX (st : Reading) (data : List Nat) : Reading :=
  if data.length < 19 then st
  else if data.getD 0 0 ≠ 18 then st
  else if data.getD 1 0 ≠ 0x16 then st
  else if (data.getD 2 0 ||| (data.getD 3 0 <<< 8)) ≠ 0x181A then st
  else
    { st with
      temperature_precise := (i16ofNat (data.getD 10 0 ||| (data.getD 11 0 <<< 8)) : ℚ) * 0.01
      humidity := (((data.getD 12 0 ||| (data.getD 13 0 <<< 8)) % 65536 : Nat) : ℚ) * 0.01
      battery_mv := (data.getD 14 0 ||| (data.getD 15 0 <<< 8)) % 65536
      battery_level := data.getD 16 0 }

/-- Inner object loop of ATC_MiThermometer::parseAdvertisingDataBTHOME
(identical in both revisions): consumes (object id, value) pairs of the
0xFCD2 service data.  The scan starts at offset 3 of the service data (the
source initialises dataIndex to 3, one byte past the 2-byte UUID).  Object id
0x00 skips one byte, 0x01 stores one byte into battery_level, 0x02 and 0x03
store little-endian 16-bit values scaled by 0.01 into temperature_precise
and humidity, 0x0C stores a little-endian 16-bit value into battery_mv, and
any other id abandons the rest of this structure.  The break statements of
the source leave only the switch: a pair whose width would read past the
structure end is dropped and the while loop re-checks the index, so the
recursion continues at the index already advanced past the object id.
The fuel argument bounds the iteration count; every call below supplies
adDataLength + 1, which exceeds the largest possible number of iterations
since the index advances by at least one per iteration. -/
def bthomeObjects (adData : List Nat) (adDataLength : Nat) : Nat → Nat → Reading → Reading
  | 0, _, st => st
  | fuel + 1, dataIndex, st =>
    if dataIndex < adDataLength then
      let objectId := adData.getD dataIndex 0
      let i := dataIndex + 1
      if objectId = 0x00 then
        if adDataLength ≤ i then bthomeObjects adData adDataLength fuel i st
        else bthomeObjects adData adDataLength fuel (i + 1) st
      else if objectId = 0x01 then
        if adDataLength ≤ i then bthomeObjects adData adDataLength fuel i st
        else bthomeObjects adData adDataLength fuel (i + 1)
          { st with battery_level := adData.getD i 0 }
      else if objectId = 0x02 then
        if adDataLength ≤ i + 1 then bthomeObjects adData adDataLength fuel i st
        else bthomeObjects adData adDataLength fuel (i + 2)
          { st with temperature_precise :=
              (((adData.getD i 0 ||| (adData.getD (i + 1) 0 <<< 8)) % 65536 : Nat) : ℚ) * 0.01 }
      else if objectId = 0x03 then
        if adDataLength ≤ i + 1 then bthomeObjects adData adDataLength fuel i st
        else bthomeObjects adData adDataLength fuel (i + 2)
          { st with humidity :=
              (((adData.getD i 0 ||| (adData.getD (i + 1) 0 <<< 8)) % 65536 : Nat) : ℚ) * 0.01 }
      else if objectId = 0x0C then
        if adDataLength ≤ i + 1 then bthomeObjects adData adDataLength fuel i st
        else bthomeObjects adData adDataLength fuel (i + 2)
          { st with battery_mv := (adData.getD i 0 ||| (adData.getD (i + 1) 0 <<< 8)) % 65536 }
      else bthomeObjects adData adDataLength fuel adDataLength st
    else st

/-- Outer AD-structure loop of ATC_MiThermometer::parseAdvertisingDataBTHOME
(identical in both revisions).  Each structure is [length][type][data...]; a
zero declared length terminates the scan, a declared length exceeding the
remaining payload stops the scan keeping the reading built so far; only AD
type 0x16 with little-endian UUID 0xFCD2 is interpreted (a too-short service
data or an unknown UUID also stops the whole scan, per the break statements
in the source).  The fuel argument bounds the iteration count; the caller
supplies length + 1, which exceeds the largest possible number of iterations
since index advances by at least 2 per iteration. -/
def bthomeScan (data : List Nat) (length : Nat) : Nat → Nat → Reading → Reading
  | 0, _, st => st
  | fuel + 1, index, st =>
    if index < length then
      let element_length := data.getD index 0
      if element_length = 0 then st
      else if length < index + 1 + element_length then st
      else
        let ad_type := data.getD (index + 1) 0
        if ad_type = 0x16 then
          let adDataLength := element_length - 1
          if adDataLength < 3 then st
          else
            let adData := data.drop (index + 2)
            if (adData.getD 0 0 ||| (adData.getD 1 0 <<< 8)) ≠ 0xFCD2 then st
            else bthomeScan data length fuel (index + 1 + element_length)
              (bthomeObjects adData adDataLength (adDataLength + 1) 3 st)
        else bthomeScan data length fuel (index + 1 + element_length) st
    else st

/-- ATC_MiThermometer::parseAdvertisingDataBTHOME (identical in both
revisions): format-C decoder.  Packets shorter than 6 bytes are dropped,
otherwise the AD-structure scan runs from index 0. -/
def parseAdvertisingDataBTHOME (st : Reading) (data : List Nat) : Reading :=
  if data.length < 6 then st
  else bthomeScan data data.length (data.length + 1) 0 st

/-- Bytes of a modelled buffer are uint8_t values. -/
def IsByteList (data : List Nat) : Prop := ∀ b ∈ data, b < 256

instance : DecidablePred IsByteList := fun data =>
  List.decidableBAll (fun b => b < 256) data

lemma getD_lt_of_byteList {data : List Nat} (hb : IsByteList data) {i : Nat}
    (hi : i < data.length) : data.getD i 0 < 256 := by
  have hmem : data.getD i 0 ∈ data := by
    rw [List.getD_eq_getElem?_getD, List.getElem?_eq_getElem hi]
    exact List.getElem_mem hi
  exact hb _ hmem

lemma be16_lt_65536 {a b : Nat} (ha : a < 256) (hb : b < 256) :
    (a <<< 8) ||| b < 65536 := by
  show (a <<< 8) ||| b < 2 ^ 16
  apply Nat.or_lt_two_pow
  · rw [Nat.shiftLeft_eq]
    show a * 256 < 65536
    omega
  · show b < 65536
    omega

lemma le16_lt_65536 {a b : Nat} (ha : a < 256) (hb : b < 256) :
    a ||| (b <<< 8) < 65536 := by
  show a ||| (b <<< 8) < 2 ^ 16
  apply Nat.or_lt_two_pow
  · show a < 65536
    omega
  · rw [Nat.shiftLeft_eq]
    show b * 256 < 65536
    omega

/-- C7: for every format-A payload of length at least 18 made of bytes, the
decoder sets humidity to payload byte 12, battery_level to byte 13,
battery_mv to the big-endian 16-bit value of bytes 14..15, and temperature
to the signed big-endian 16-bit value of bytes 10..11 scaled by 0.1; it
never writes temperature_precise; and a payload shorter than 18 bytes
updates no field at all. -/
theorem C7_format_a_decoder (st : Reading) (data : List Nat) :
    (data.length < 18 → parseAdvertisingDataATC1441 st data = st) ∧
    ((parseAdvertisingDataATC1441 st data).temperature_precise = st.temperature_precise) ∧
    (18 ≤ data.length → IsByteList data →
      parseAdvertisingDataATC1441 st data =
        { st with
          temperature := (i16ofNat ((data.getD 10 0 <<< 8) ||| data.getD 11 0) : ℚ) * 0.1
          humidity := (data.getD 12 0 : ℚ)
          battery_level := data.getD 13 0
          battery_mv := (data.getD 14 0 <<< 8) ||| data.getD 15 0 }) := by
  refine ⟨fun h => by simp [parseAdvertisingDataATC1441, h], ?_, fun h hb => ?_⟩
  · unfold parseAdvertisingDataATC1441
    split <;> rfl
  · have h14 : data.getD 14 0 < 256 := getD_lt_of_byteList hb (by omega)
    have h15 : data.getD 15 0 < 256 := getD_lt_of_byteList hb (by omega)
    have hlt := be16_lt_65536 h14 h15
    unfold parseAdvertisingDataATC1441
    rw [if_neg (by omega), Nat.mod_eq_of_lt hlt]

/-- C7 witness: a concrete 18-byte format-A payload with temperature raw
0x0102 = 258, humidity 55, battery level 77, battery 3000 mV. -/
theorem C7_format_a_decoder_witness :
    parseAdvertisingDataATC1441 ⟨0, 0, 0, 0, 0⟩
        [1, 2, 3, 4, 5, 6, 7, 8, 9, 10, 1, 2, 55, 77, 11, 184, 0, 0] =
      { temperature := 129 / 5, temperature_precise := 0, humidity := 55,
        battery_level := 77, battery_mv := 3000 } :=
  ((C7_format_a_decoder ⟨0, 0, 0, 0, 0⟩
      [1, 2, 3, 4, 5, 6, 7, 8, 9, 10, 1, 2, 55, 77, 11, 184, 0, 0]).2.2
    (by decide) (by decide)).trans (by decide)

/-- C6: for every format-B payload in which one of the three header checks
fails (declared size byte not 18, AD type byte not 0x16, or little-endian
bytes 2..3 not 0x181A), the decoder updates no field regardless of the rest
of the payload; and for every byte payload of length at least 19 passing all
three checks it sets temperature_precise, humidity, battery_mv and
battery_level from bytes 10..16 as specified. -/
theorem C6_format_b_decoder (st : Reading) (data : List Nat) :
    ((data.getD 0 0 ≠ 18 ∨ data.getD 1 0 ≠ 0x16 ∨
        (data.getD 2 0 ||| (data.getD 3 0 <<< 8)) ≠ 0x181A) →
      parseAdvertisingDataPVVX st data = st) ∧
    (19 ≤ data.length → IsByteList data →
      data.getD 0 0 = 18 → data.getD 1 0 = 0x16 →
      (data.getD 2 0 ||| (data.getD 3 0 <<< 8)) = 0x181A →
      parseAdvertisingDataPVVX st data =
        { st with
          temperature_precise :=
            (i16ofNat (data.getD 10 0 ||| (data.getD 11 0 <<< 8)) : ℚ) * 0.01
          humidity := ((data.getD 12 0 ||| (data.getD 13 0 <<< 8) : Nat) : ℚ) * 0.01
          battery_mv := data.getD 14 0 ||| (data.getD 15 0 <<< 8)
          battery_level := data.getD 16 0 }) := by
  constructor
  · intro h
    unfold parseAdvertisingDataPVVX
    split_ifs <;> first | rfl | tauto
  · intro hlen hb h0 h1 h2
    have h12 : data.getD 12 0 < 256 := getD_lt_of_byteList hb (by omega)
    have h13 : data.getD 13 0 < 256 := getD_lt_of_byteList hb (by omega)
    have h14 : data.getD 14 0 < 256 := getD_lt_of_byteList hb (by omega)
    have h15 : data.getD 15 0 < 256 := getD_lt_of_byteList hb (by omega)
    have hm1 := le16_lt_65536 h12 h13
    have hm2 := le16_lt_65536 h14 h15
    unfold parseAdvertisingDataPVVX
    rw [if_neg (by omega), if_neg (fun hc => hc h0), if_neg (fun hc => hc h1),
      if_neg (fun hc => hc h2), Nat.mod_eq_of_lt hm1, Nat.mod_eq_of_lt hm2]

/-- C6 witness: a concrete valid 19-byte format-B payload (size 18, type
0x16, UUID 0x181A) with temperature raw 258, humidity raw 10000, battery
3000 mV, battery level 88; plus a rejected payload differing only in the
UUID, left fully untouched. -/
theorem C6_format_b_decoder_witness :
    parseAdvertisingDataPVVX ⟨7, 7, 7, 7, 7⟩
        [18, 22, 26, 24, 0, 0, 0, 0, 0, 0, 2, 1, 16, 39, 184, 11, 88, 0, 0] =
      { temperature := 7, temperature_precise := 129 / 50, humidity := 100,
        battery_level := 88, battery_mv := 3000 } ∧
    parseAdvertisingDataPVVX ⟨7, 7, 7, 7, 7⟩
        [18, 22, 27, 24, 0, 0, 0, 0, 0, 0, 2, 1, 16, 39, 184, 11, 88, 0, 0] =
      ⟨7, 7, 7, 7, 7⟩ :=
  ⟨((C6_format_b_decoder ⟨7, 7, 7, 7, 7⟩
        [18, 22, 26, 24, 0, 0, 0, 0, 0, 0, 2, 1, 16, 39, 184, 11, 88, 0, 0]).2
      (by decide) (by decide) (by decide) (by decide) (by decide)).trans (by decide),
    (C6_format_b_decoder ⟨7, 7, 7, 7, 7⟩
        [18, 22, 27, 24, 0, 0, 0, 0, 0, 0, 2, 1, 16, 39, 184, 11, 88, 0, 0]).1
      (by decide)⟩

/-- C8: for every format-C payload of length at least 6 the decoder runs the
AD-structure scan from index 0; at any scan position, a structure declaring
length 0 terminates the scan returning the reading accumulated so far, and a
structure whose declared length would exceed the remaining payload also
stops the scan returning the accumulated reading, with no error raised (the
scan is a total function into Reading). -/
theorem C8_format_c_scan_stops (data : List Nat) (st : Reading) :
    (6 ≤ data.length →
      parseAdvertisingDataBTHOME st data =
        bthomeScan data data.length (data.length + 1) 0 st) ∧
    (∀ fuel index r, index < data.length → data.getD index 0 = 0 →
      bthomeScan data data.length (fuel + 1) index r = r) ∧
    (∀ fuel index r, index < data.length → data.getD index 0 ≠ 0 →
      data.length < index + 1 + data.getD index 0 →
      bthomeScan data data.length (fuel + 1) index r = r) := by
  refine ⟨fun h => ?_, fun fuel index r hidx hz => ?_, fun fuel index r hidx hnz hover => ?_⟩
  · unfold parseAdvertisingDataBTHOME
    rw [if_neg (by omega)]
  · simp only [bthomeScan]
    rw [if_pos hidx, if_pos hz]
  · simp only [bthomeScan]
    rw [if_pos hidx, if_neg hnz, if_pos hover]

/-- C8 witness: the 10-byte payload below contains a valid battery structure
followed by a structure declaring length 9 with only 2 bytes remaining; the
scan stops there keeping the battery level, and a zero-length structure also
stops the scan. -/
theorem C8_format_c_scan_stops_witness :
    (6 ≤ ([6, 22, 210, 252, 0, 1, 100, 9, 22, 210] : List Nat).length ∧
      parseAdvertisingDataBTHOME ⟨0, 0, 0, 0, 0⟩ [6, 22, 210, 252, 0, 1, 100, 9, 22, 210] =
        bthomeScan [6, 22, 210, 252, 0, 1, 100, 9, 22, 210] 10 11 0 ⟨0, 0, 0, 0, 0⟩) ∧
    bthomeScan [6, 22, 210, 252, 0, 1, 100, 9, 22, 210] 10 3 7 ⟨0, 0, 0, 100, 0⟩ =
      ⟨0, 0, 0, 100, 0⟩ ∧
    bthomeScan [0, 22, 210, 252, 0, 1, 100, 9, 22, 210] 10 3 0 ⟨0, 0, 0, 0, 0⟩ =
      ⟨0, 0, 0, 0, 0⟩ ∧
    parseAdvertisingDataBTHOME ⟨0, 0, 0, 0, 0⟩ [6, 22, 210, 252, 0, 1, 100, 9, 22, 210] =
      ⟨0, 0, 0, 100, 0⟩ :=
  ⟨⟨by decide,
      (C8_format_c_scan_stops [6, 22, 210, 252, 0, 1, 100, 9, 22, 210] ⟨0, 0, 0, 0, 0⟩).1
        (by decide)⟩,
    (C8_format_c_scan_stops [6, 22, 210, 252, 0, 1, 100, 9, 22, 210] ⟨0, 0, 0, 0, 0⟩).2.2
      2 7 ⟨0, 0, 0, 100, 0⟩ (by decide) (by decide) (by decide),
    (C8_format_c_scan_stops [0, 22, 210, 252, 0, 1, 100, 9, 22, 210] ⟨0, 0, 0, 0, 0⟩).2.1
      2 0 ⟨0, 0, 0, 0, 0⟩ (by decide) (by decide),
    by decide⟩

/-- C1 counterexample: the 6-byte format-C payload of the claim,
[0x05, 0x16, 0xD2, 0xFC, 0x01, 0x64], leaves the whole cached Reading
untouched: the decoder starts consuming object pairs at offset 3 of the
service data, so the byte 0x01 right after the UUID is skipped and 0x64 is
read as an unknown object id.  In particular battery_level stays 0, not
0x64 = 100 as the claim states. -/
theorem C1_counterexample_bthome_battery :
    parseAdvertisingDataBTHOME ⟨0, 0, 0, 0, 0⟩ [0x05, 0x16, 0xD2, 0xFC, 0x01, 0x64] =
      ⟨0, 0, 0, 0, 0⟩ ∧
    (parseAdvertisingDataBTHOME ⟨0, 0, 0, 0, 0⟩
        [0x05, 0x16, 0xD2, 0xFC, 0x01, 0x64]).battery_level ≠ 100 := by
  decide

/-- C1 amended: the decoder consumes (object id, value) pairs starting at
offset 3 of the 0xFCD2 service data, one byte past the 2-byte UUID; the
7-byte payload [0x06, 0x16, 0xD2, 0xFC, 0x00, 0x01, 0x64] therefore decodes
battery_level = 0x64 = 100 and keeps the temperature, precise-temperature
and humidity fields of the cached Reading; in general, whenever the pair
scan meets object id 0x01 with a byte available, it stores that byte into
battery_level and continues two positions further. -/
theorem C1_amended_bthome_battery (r : Reading) :
    (parseAdvertisingDataBTHOME r [0x06, 0x16, 0xD2, 0xFC, 0x00, 0x01, 0x64] =
      { r with battery_level := 100 }) ∧
    (∀ adData adDataLength i st fuel, i < adDataLength → adData.getD i 0 = 0x01 →
      i + 1 < adDataLength →
      bthomeObjects adData adDataLength (fuel + 1) i st =
        bthomeObjects adData adDataLength fuel (i + 2)
          { st with battery_level := adData.getD (i + 1) 0 }) := by
  constructor
  · simp [parseAdvertisingDataBTHOME, bthomeScan, bthomeObjects]
  · intro adData adDataLength i st fuel hi hobj hlt
    simp only [bthomeObjects]
    rw [if_pos hi, hobj, if_neg (by decide), if_pos rfl, if_neg (by omega)]

/-- C1 amended witness: the amended scenario payload decodes battery level
100 from prior all-zero cache, and the object-pair step fires on a concrete
service data. -/
theorem C1_amended_bthome_battery_witness :
    (parseAdvertisingDataBTHOME ⟨0, 0, 0, 0, 0⟩ [0x06, 0x16, 0xD2, 0xFC, 0x00, 0x01, 0x64] =
      ⟨0, 0, 0, 0x64, 0⟩) ∧
    bthomeObjects [210, 252, 0, 1, 100] 5 3 3 ⟨0, 0, 0, 0, 0⟩ =
      bthomeObjects [210, 252, 0, 1, 100] 5 2 5 ⟨0, 0, 0, 100, 0⟩ :=
  ⟨(C1_amended_bthome_battery ⟨0, 0, 0, 0, 0⟩).1.trans (by decide),
    ((C1_amended_bthome_battery ⟨0, 0, 0, 0, 0⟩).2 [210, 252, 0, 1, 100] 5 3
        ⟨0, 0, 0, 0, 0⟩ 2 (by decide) (by decide) (by decide)).trans (by decide)⟩

/-- The cached device settings record ATC_MiThermometer_Settings (struct in
ATC_MiThermometer_structs.h, shared by both revisions).  The C enum class
fields Advertising_Type, Smiley, RF_TX_Power and HW_VERSION_ID are modelled
by their underlying numeric codes; the two float offsets by exact rationals;
int8_t calibration offsets by integers; uint8_t step fields by naturals. -/
structure ATC_MiThermometer_Settings where
  lp_measures : Bool
  tx_measures : Bool
  show_battery : Bool
  temp_F_or_C : Bool
  blinking_time_smile : Bool
  comfort_smiley : Bool
  advertising_type : Nat
  smiley : Nat
  adv_crypto : Bool
  adv_flags : Bool
  bt5phy : Bool
  long_range : Bool
  screen_off : Bool
  temp_offset : ℚ
  humidity_offset : ℚ
  temp_offset_cal : Int
  humidity_offset_cal : Int
  advertising_interval : Nat
  measure_interval : Nat
  rfTxPower : Nat
  connect_latency : Nat
  lcd_update_interval : Nat
  hw_version : Nat
  averaging_measurements : Nat
deriving DecidableEq

/-- The state the settings notification handler works on: the cached
settings record plus the read_settings and received_settings flags. -/
structure SettingsState where
  settings : ATC_MiThermometer_Settings
  read_settings : Bool
  received_settings : Bool
deriving DecidableEq

/-- Field extraction block of ATC_MiThermometer::notifySettingsCallback
(identical in both revisions): bytes 2..12 of a settings response are
unpacked into the settings record.  Byte 2 MSB first: low power, transmit,
show battery, fahrenheit, blinking smile, comfort smiley, 2-bit advertising
type; byte 3 MSB first: screen off, long range, bt5 phy, adv flags, adv
crypto, 3-bit smiley; bytes 4 and 5 as signed eighth-bit values divided by
10; bytes 6..12 raw.  The calibration offset fields are not part of the
response and keep their old values. -/
def settingsFromResponse (old : ATC_MiThermometer_Settings) (pData : List Nat) :
    ATC_MiThermometer_Settings :=
  { old with
    lp_measures := pData.getD 2 0 &&& 0x80 != 0
    tx_measures := pData.getD 2 0 &&& 0x40 != 0
    show_battery := pData.getD 2 0 &&& 0x20 != 0
    temp_F_or_C := pData.getD 2 0 &&& 0x10 != 0
    blinking_time_smile := pData.getD 2 0 &&& 0x08 != 0
    comfort_smiley := pData.getD 2 0 &&& 0x04 != 0
    advertising_type := pData.getD 2 0 &&& 0x03
    screen_off := pData.getD 3 0 &&& 0x80 != 0
    long_range := pData.getD 3 0 &&& 0x40 != 0
    bt5phy := pData.getD 3 0 &&& 0x20 != 0
    adv_flags := pData.getD 3 0 &&& 0x10 != 0
    adv_crypto := pData.getD 3 0 &&& 0x08 != 0
    smiley := pData.getD 3 0 &&& 0x07
    temp_offset := (i8ofNat (pData.getD 4 0) : ℚ) / 10
    humidity_offset := (i8ofNat (pData.getD 5 0) : ℚ) / 10
    advertising_interval := pData.getD 6 0
    measure_interval := pData.getD 7 0
    rfTxPower := pData.getD 8 0
    connect_latency := pData.getD 9 0
    lcd_update_interval := pData.getD 10 0
    hw_version := pData.getD 11 0
    averaging_measurements := pData.getD 12 0 }

/-- ATC_MiThermometer::notifySettingsCallback (identical in both revisions).
A null or empty notification returns immediately.  Otherwise the handler
sets read_settings and received_settings first, then checks the length: a
response shorter than 13 bytes is rejected with no settings field written,
a longer one is unpacked by settingsFromResponse. -/
def notifySettingsCallback (st : SettingsState) (pData : List Nat) : SettingsState :=
  if pData.length = 0 then st
  else
    let st1 : SettingsState := { st with read_settings := true, received_settings := true }
    if pData.length < 13 then st1
    else { st1 with settings := settingsFromResponse st.settings pData }

/-- ATC_MiThermometer::parseSettings of the newer revision
(src/src/ATC_MiThermometer.cpp): encodes a settings record into the 12-byte
settings-write payload.  Byte 0 opcode 0x55, byte 1 length 0x0A, bytes 2 and
3 the bit packing of the boolean and enum groups, bytes 4 and 5 the offsets
scaled by 10 and cast to uint8_t, bytes 6..11 the raw step and code fields.
The modulo 256 wraps model the implicit int-to-uint8_t narrowing of the
byte stores and the static_cast on the RF power code. -/
def parseSettings (s : ATC_MiThermometer_Settings) : List Nat :=
  [0x55, 0x0A,
    ((s.lp_measures.toNat <<< 7) ||| (s.tx_measures.toNat <<< 6) |||
      (s.show_battery.toNat <<< 5) ||| (s.temp_F_or_C.toNat <<< 4) |||
      (s.blinking_time_smile.toNat <<< 3) ||| (s.comfort_smiley.toNat <<< 2) |||
      s.advertising_type) % 256,
    ((s.screen_off.toNat <<< 7) ||| (s.long_range.toNat <<< 6) |||
      (s.bt5phy.toNat <<< 5) ||| (s.adv_flags.toNat <<< 4) |||
      (s.adv_crypto.toNat <<< 3) ||| s.smiley) % 256,
    u8ofRat (s.temp_offset * 10),
    u8ofRat (s.humidity_offset * 10),
    s.advertising_interval,
    s.measure_interval,
    s.rfTxPower % 256,
    s.connect_latency,
    s.lcd_update_interval,
    s.averaging_measurements]

/-- ATC_MiThermometer::parseSettings of the top-level revision
(src/ATC_MiThermometer.cpp).  It differs from the newer revision only at
bytes 4 and 5: the source writes the cast before the multiplication, so the
offset is truncated to uint8_t first and the result multiplied by 10 (then
narrowed into the byte). -/
def parseSettingsV1 (s : ATC_MiThermometer_Settings) : List Nat :=
  [0x55, 0x0A,
    ((s.lp_measures.toNat <<< 7) ||| (s.tx_measures.toNat <<< 6) |||
      (s.show_battery.toNat <<< 5) ||| (s.temp_F_or_C.toNat <<< 4) |||
      (s.blinking_time_smile.toNat <<< 3) ||| (s.comfort_smiley.toNat <<< 2) |||
      s.advertising_type) % 256,
    ((s.screen_off.toNat <<< 7) ||| (s.long_range.toNat <<< 6) |||
      (s.bt5phy.toNat <<< 5) ||| (s.adv_flags.toNat <<< 4) |||
      (s.adv_crypto.toNat <<< 3) ||| s.smiley) % 256,
    (u8ofRat s.temp_offset * 10) % 256,
    (u8ofRat s.humidity_offset * 10) % 256,
    s.advertising_interval,
    s.measure_interval,
    s.rfTxPower % 256,
    s.connect_latency,
    s.lcd_update_interval,
    s.averaging_measurements]

/-- The bytes ATC_MiThermometer::sendSettings writes to the command
characteristic for a given record: the parseSettings encoding of it. -/
def sendSettings_wire (newSettings : ATC_MiThermometer_Settings) : List Nat :=
  parseSettings newSettings

/-- ATC_MiThermometer::setRfTxPower: current settings with the RF power code
replaced, pushed whole via sendSettings. -/
def setRfTxPower (s : ATC_MiThermometer_Settings) (v : Nat) : ATC_MiThermometer_Settings :=
  { s with rfTxPower := v }

/-- ATC_MiThermometer::setLowPowerMeasures of the newer revision
(src/src/ATC_MiThermometer.cpp): the cached settings with the low-power
field replaced, pushed whole via sendSettings.  The top-level revision of
this one setter diverges, see setLowPowerMeasuresV1. -/
def setLowPowerMeasures (s : ATC_MiThermometer_Settings) (v : Bool) : ATC_MiThermometer_Settings :=
  { s with lp_measures := v }

/-- ATC_MiThermometer::setLowPowerMeasures of the top-level revision
(src/ATC_MiThermometer.cpp).  The source copies the cached settings into
newSettings but then assigns the new value to the cached member
settings.lp_measures instead of to the copy, and pushes the unmodified
copy.  The first component is the record passed to sendSettings (the cached
record, no field replaced), the second the cached record after the call
(low-power field replaced, never sent). -/
def setLowPowerMeasuresV1 (s : ATC_MiThermometer_Settings) (v : Bool) :
    ATC_MiThermometer_Settings × ATC_MiThermometer_Settings :=
  (s, { s with lp_measures := v })

/-- ATC_MiThermometer::setTransmitMeasures. -/
def setTransmitMeasures (s : ATC_MiThermometer_Settings) (v : Bool) : ATC_MiThermometer_Settings :=
  { s with tx_measures := v }

/-- ATC_MiThermometer::setShowBattery. -/
def setShowBattery (s : ATC_MiThermometer_Settings) (v : Bool) : ATC_MiThermometer_Settings :=
  { s with show_battery := v }

/-- ATC_MiThermometer::setTempFOrC. -/
def setTempFOrC (s : ATC_MiThermometer_Settings) (v : Bool) : ATC_MiThermometer_Settings :=
  { s with temp_F_or_C := v }

/-- ATC_MiThermometer::setBlinkingTimeSmile. -/
def setBlinkingTimeSmile (s : ATC_MiThermometer_Settings) (v : Bool) : ATC_MiThermometer_Settings :=
  { s with blinking_time_smile := v }

/-- ATC_MiThermometer::setComfortSmiley. -/
def setComfortSmiley (s : ATC_MiThermometer_Settings) (v : Bool) : ATC_MiThermometer_Settings :=
  { s with comfort_smiley := v }

/-- ATC_MiThermometer::setAdvCrypto. -/
def setAdvCrypto (s : ATC_MiThermometer_Settings) (v : Bool) : ATC_MiThermometer_Settings :=
  { s with adv_crypto := v }

/-- ATC_MiThermometer::setAdvFlags. -/
def setAdvFlags (s : ATC_MiThermometer_Settings) (v : Bool) : ATC_MiThermometer_Settings :=
  { s with adv_flags := v }

/-- ATC_MiThermometer::setSmiley. -/
def setSmiley (s : ATC_MiThermometer_Settings) (v : Nat) : ATC_MiThermometer_Settings :=
  { s with smiley := v }

/-- ATC_MiThermometer::setBT5PHY. -/
def setBT5PHY (s : ATC_MiThermometer_Settings) (v : Bool) : ATC_MiThermometer_Settings :=
  { s with bt5phy := v }

/-- ATC_MiThermometer::setLongRange. -/
def setLongRange (s : ATC_MiThermometer_Settings) (v : Bool) : ATC_MiThermometer_Settings :=
  { s with long_range := v }

/-- ATC_MiThermometer::setScreenOff. -/
def setScreenOff (s : ATC_MiThermometer_Settings) (v : Bool) : ATC_MiThermometer_Settings :=
  { s with screen_off := v }

/-- ATC_MiThermometer::setTempOffset. -/
def setTempOffset (s : ATC_MiThermometer_Settings) (v : ℚ) : ATC_MiThermometer_Settings :=
  { s with temp_offset := v }

/-- ATC_MiThermometer::setHumidityOffset. -/
def setHumidityOffset (s : ATC_MiThermometer_Settings) (v : ℚ) : ATC_MiThermometer_Settings :=
  { s with humidity_offset := v }

/-- ATC_MiThermometer::setTempOffsetCal. -/
def setTempOffsetCal (s : ATC_MiThermometer_Settings) (v : Int) : ATC_MiThermometer_Settings :=
  { s with temp_offset_cal := v }

/-- ATC_MiThermometer::setHumidityOffsetCal. -/
def setHumidityOffsetCal (s : ATC_MiThermometer_Settings) (v : Int) : ATC_MiThermometer_Settings :=
  { s with humidity_offset_cal := v }

/-- ATC_MiThermometer::setAdvertisingIntervalSteps. -/
def setAdvertisingIntervalSteps (s : ATC_MiThermometer_Settings) (v : Nat) : ATC_MiThermometer_Settings :=
  { s with advertising_interval := v }

/-- ATC_MiThermometer::setMeasureIntervalSteps. -/
def setMeasureIntervalSteps (s : ATC_MiThermometer_Settings) (v : Nat) : ATC_MiThermometer_Settings :=
  { s with measure_interval := v }

/-- ATC_MiThermometer::setConnectLatencySteps. -/
def setConnectLatencySteps (s : ATC_MiThermometer_Settings) (v : Nat) : ATC_MiThermometer_Settings :=
  { s with connect_latency := v }

/-- ATC_MiThermometer::setLcdUpdateIntervalSteps. -/
def setLcdUpdateIntervalSteps (s : ATC_MiThermometer_Settings) (v : Nat) : ATC_MiThermometer_Settings :=
  { s with lcd_update_interval := v }

/-- ATC_MiThermometer::setAveragingMeasurementsSteps. -/
def setAveragingMeasurementsSteps (s : ATC_MiThermometer_Settings) (v : Nat) : ATC_MiThermometer_Settings :=
  { s with averaging_measurements := v }

/-- Pointwise field comparison of two settings records, the fields indexed
0..23 in declaration order; indices past 23 compare trivially. -/
def settingsFieldEq (i : Nat) (s t : ATC_MiThermometer_Settings) : Prop :=
  match i with
  | 0 => s.lp_measures = t.lp_measures
  | 1 => s.tx_measures = t.tx_measures
  | 2 => s.show_battery = t.show_battery
  | 3 => s.temp_F_or_C = t.temp_F_or_C
  | 4 => s.blinking_time_smile = t.blinking_time_smile
  | 5 => s.comfort_smiley = t.comfort_smiley
  | 6 => s.advertising_type = t.advertising_type
  | 7 => s.smiley = t.smiley
  | 8 => s.adv_crypto = t.adv_crypto
  | 9 => s.adv_flags = t.adv_flags
  | 10 => s.bt5phy = t.bt5phy
  | 11 => s.long_range = t.long_range
  | 12 => s.screen_off = t.screen_off
  | 13 => s.temp_offset = t.temp_offset
  | 14 => s.humidity_offset = t.humidity_offset
  | 15 => s.temp_offset_cal = t.temp_offset_cal
  | 16 => s.humidity_offset_cal = t.humidity_offset_cal
  | 17 => s.advertising_interval = t.advertising_interval
  | 18 => s.measure_interval = t.measure_interval
  | 19 => s.rfTxPower = t.rfTxPower
  | 20 => s.connect_latency = t.connect_latency
  | 21 => s.lcd_update_interval = t.lcd_update_interval
  | 22 => s.hw_version = t.hw_version
  | 23 => s.averaging_measurements = t.averaging_measurements
  | _ => True

/-- All fields except the one indexed k agree between s and t. -/
def mutatesOnly (k : Nat) (s t : ATC_MiThermometer_Settings) : Prop :=
  ∀ i, i ≠ k → settingsFieldEq i s t

/-- A concrete all-zero settings record used by the concrete evaluations. -/
def exampleSettings : ATC_MiThermometer_Settings :=
  ⟨false, false, false, false, false, false, 0, 0, false, false, false, false, false,
    0, 0, 0, 0, 0, 0, 0, 0, 0, 0, 0⟩

/-- Every single-field setter of the newer revision builds the record it
pushes by taking the current cached settings and replacing exactly one
field with the new value; the bytes pushed on the wire by sendSettings are
the parseSettings encoding of that record.  The top-level revision's
setters are textually identical except setLowPowerMeasures, which diverges
(see setLowPowerMeasuresV1).  One conjunct per setter: the wire bytes, the
mutated field, and the fact that every other field of the 24 is
unchanged. -/
theorem settersV2_fetch_mutate_push (s : ATC_MiThermometer_Settings) :
    (∀ v, sendSettings_wire (setLowPowerMeasures s v) = parseSettings { s with lp_measures := v } ∧
      (setLowPowerMeasures s v).lp_measures = v ∧ mutatesOnly 0 s (setLowPowerMeasures s v)) ∧
    (∀ v, sendSettings_wire (setTransmitMeasures s v) = parseSettings { s with tx_measures := v } ∧
      (setTransmitMeasures s v).tx_measures = v ∧ mutatesOnly 1 s (setTransmitMeasures s v)) ∧
    (∀ v, sendSettings_wire (setShowBattery s v) = parseSettings { s with show_battery := v } ∧
      (setShowBattery s v).show_battery = v ∧ mutatesOnly 2 s (setShowBattery s v)) ∧
    (∀ v, sendSettings_wire (setTempFOrC s v) = parseSettings { s with temp_F_or_C := v } ∧
      (setTempFOrC s v).temp_F_or_C = v ∧ mutatesOnly 3 s (setTempFOrC s v)) ∧
    (∀ v, sendSettings_wire (setBlinkingTimeSmile s v) =
        parseSettings { s with blinking_time_smile := v } ∧
      (setBlinkingTimeSmile s v).blinking_time_smile = v ∧
      mutatesOnly 4 s (setBlinkingTimeSmile s v)) ∧
    (∀ v, sendSettings_wire (setComfortSmiley s v) = parseSettings { s with comfort_smiley := v } ∧
      (setComfortSmiley s v).comfort_smiley = v ∧ mutatesOnly 5 s (setComfortSmiley s v)) ∧
    (∀ v, sendSettings_wire (setSmiley s v) = parseSettings { s with smiley := v } ∧
      (setSmiley s v).smiley = v ∧ mutatesOnly 7 s (setSmiley s v)) ∧
    (∀ v, sendSettings_wire (setAdvCrypto s v) = parseSettings { s with adv_crypto := v } ∧
      (setAdvCrypto s v).adv_crypto = v ∧ mutatesOnly 8 s (setAdvCrypto s v)) ∧
    (∀ v, sendSettings_wire (setAdvFlags s v) = parseSettings { s with adv_flags := v } ∧
      (setAdvFlags s v).adv_flags = v ∧ mutatesOnly 9 s (setAdvFlags s v)) ∧
    (∀ v, sendSettings_wire (setBT5PHY s v) = parseSettings { s with bt5phy := v } ∧
      (setBT5PHY s v).bt5phy = v ∧ mutatesOnly 10 s (setBT5PHY s v)) ∧
    (∀ v, sendSettings_wire (setLongRange s v) = parseSettings { s with long_range := v } ∧
      (setLongRange s v).long_range = v ∧ mutatesOnly 11 s (setLongRange s v)) ∧
    (∀ v, sendSettings_wire (setScreenOff s v) = parseSettings { s with screen_off := v } ∧
      (setScreenOff s v).screen_off = v ∧ mutatesOnly 12 s (setScreenOff s v)) ∧
    (∀ v, sendSettings_wire (setTempOffset s v) = parseSettings { s with temp_offset := v } ∧
      (setTempOffset s v).temp_offset = v ∧ mutatesOnly 13 s (setTempOffset s v)) ∧
    (∀ v, sendSettings_wire (setHumidityOffset s v) =
        parseSettings { s with humidity_offset := v } ∧
      (setHumidityOffset s v).humidity_offset = v ∧ mutatesOnly 14 s (setHumidityOffset s v)) ∧
    (∀ v, sendSettings_wire (setTempOffsetCal s v) = parseSettings { s with temp_offset_cal := v } ∧
      (setTempOffsetCal s v).temp_offset_cal = v ∧ mutatesOnly 15 s (setTempOffsetCal s v)) ∧
    (∀ v, sendSettings_wire (setHumidityOffsetCal s v) =
        parseSettings { s with humidity_offset_cal := v } ∧
      (setHumidityOffsetCal s v).humidity_offset_cal = v ∧
      mutatesOnly 16 s (setHumidityOffsetCal s v)) ∧
    (∀ v, sendSettings_wire (setAdvertisingIntervalSteps s v) =
        parseSettings { s with advertising_interval := v } ∧
      (setAdvertisingIntervalSteps s v).advertising_interval = v ∧
      mutatesOnly 17 s (setAdvertisingIntervalSteps s v)) ∧
    (∀ v, sendSettings_wire (setMeasureIntervalSteps s v) =
        parseSettings { s with measure_interval := v } ∧
      (setMeasureIntervalSteps s v).measure_interval = v ∧
      mutatesOnly 18 s (setMeasureIntervalSteps s v)) ∧
    (∀ v, sendSettings_wire (setRfTxPower s v) = parseSettings { s with rfTxPower := v } ∧
      (setRfTxPower s v).rfTxPower = v ∧ mutatesOnly 19 s (setRfTxPower s v)) ∧
    (∀ v, sendSettings_wire (setConnectLatencySteps s v) =
        parseSettings { s with connect_latency := v } ∧
      (setConnectLatencySteps s v).connect_latency = v ∧
      mutatesOnly 20 s (setConnectLatencySteps s v)) ∧
    (∀ v, sendSettings_wire (setLcdUpdateIntervalSteps s v) =
        parseSettings { s with lcd_update_interval := v } ∧
      (setLcdUpdateIntervalSteps s v).lcd_update_interval = v ∧
      mutatesOnly 21 s (setLcdUpdateIntervalSteps s v)) ∧
    (∀ v, sendSettings_wire (setAveragingMeasurementsSteps s v) =
        parseSettings { s with averaging_measurements := v } ∧
      (setAveragingMeasurementsSteps s v).averaging_measurements = v ∧
      mutatesOnly 23 s (setAveragingMeasurementsSteps s v)) := by
  refine ⟨?_, ?_, ?_, ?_, ?_, ?_, ?_, ?_, ?_, ?_, ?_, ?_, ?_, ?_, ?_, ?_, ?_, ?_, ?_, ?_,
    ?_, ?_⟩ <;>
    · intro v
      refine ⟨rfl, rfl, fun i hik => ?_⟩
      unfold settingsFieldEq
      split <;> first | rfl | exact absurd rfl hik | trivial

/-- C3 counterexample: a 5-byte settings response is rejected with no
settings field written, yet the handler has already set both read_settings
and received_settings, contradicting the claim that the flags are set only
when the handler actually copies a well-formed response. -/
theorem C3_counterexample_flags_on_short :
    (notifySettingsCallback ⟨exampleSettings, false, false⟩ [0x55, 0x0A, 0, 0, 0]).settings =
      exampleSettings ∧
    (notifySettingsCallback ⟨exampleSettings, false, false⟩
        [0x55, 0x0A, 0, 0, 0]).received_settings = true ∧
    (notifySettingsCallback ⟨exampleSettings, false, false⟩
        [0x55, 0x0A, 0, 0, 0]).read_settings = true := by
  decide

/-- C3 amended: a settings response shorter than 13 bytes writes no field of
the cached settings record; but the received_settings and read_settings
flags are set for every non-empty response, malformed ones included, not
only when bytes 2..12 are copied; only a null or empty notification leaves
the state untouched; a response of length at least 13 both copies bytes
2..12 and sets the flags. -/
theorem C3_amended_short_response (st : SettingsState) (p : List Nat) :
    (p.length < 13 → (notifySettingsCallback st p).settings = st.settings) ∧
    (p ≠ [] → (notifySettingsCallback st p).read_settings = true ∧
      (notifySettingsCallback st p).received_settings = true) ∧
    (p = [] → notifySettingsCallback st p = st) ∧
    (13 ≤ p.length →
      (notifySettingsCallback st p).settings = settingsFromResponse st.settings p) := by
  simp only [notifySettingsCallback]
  by_cases h0 : p.length = 0
  · rw [if_pos h0]
    exact ⟨fun _ => rfl, fun hne => absurd (List.length_eq_zero.mp h0) hne, fun _ => rfl,
      fun h13 => absurd h13 (by omega)⟩
  · rw [if_neg h0]
    by_cases h13 : p.length < 13
    · rw [if_pos h13]
      exact ⟨fun _ => rfl, fun _ => ⟨rfl, rfl⟩,
        fun hp => absurd (by rw [hp]; rfl) h0, fun hge => absurd hge (by omega)⟩
    · rw [if_neg h13]
      exact ⟨fun hlt => absurd hlt h13, fun _ => ⟨rfl, rfl⟩,
        fun hp => absurd (by rw [hp]; rfl) h0, fun _ => rfl⟩

/-- C3 amended witness: a 1-byte response leaves the settings untouched but
raises both flags; an empty response changes nothing; a 13-byte response is
copied. -/
theorem C3_amended_short_response_witness :
    (notifySettingsCallback ⟨exampleSettings, false, false⟩ [0x55]).settings =
      exampleSettings ∧
    (notifySettingsCallback ⟨exampleSettings, false, false⟩ [0x55]).read_settings = true ∧
    (notifySettingsCallback ⟨exampleSettings, false, false⟩ [0x55]).received_settings = true ∧
    notifySettingsCallback ⟨exampleSettings, false, false⟩ [] =
      ⟨exampleSettings, false, false⟩ ∧
    (notifySettingsCallback ⟨exampleSettings, false, false⟩
        [0x55, 0x0A, 0x90, 0x00, 0xFC, 0, 0, 0, 0, 0, 0, 0, 0]).settings =
      settingsFromResponse exampleSettings
        [0x55, 0x0A, 0x90, 0x00, 0xFC, 0, 0, 0, 0, 0, 0, 0, 0] :=
  ⟨(C3_amended_short_response ⟨exampleSettings, false, false⟩ [0x55]).1 (by decide),
    ((C3_amended_short_response ⟨exampleSettings, false, false⟩ [0x55]).2.1 (by decide)).1,
    ((C3_amended_short_response ⟨exampleSettings, false, false⟩ [0x55]).2.1 (by decide)).2,
    (C3_amended_short_response ⟨exampleSettings, false, false⟩ []).2.2.1 rfl,
    (C3_amended_short_response ⟨exampleSettings, false, false⟩
        [0x55, 0x0A, 0x90, 0x00, 0xFC, 0, 0, 0, 0, 0, 0, 0, 0]).2.2.2 (by decide)⟩

/-- C5: for every settings response of length at least 13 the handler
extracts byte 2 MSB first as low power, transmit, show battery, fahrenheit,
blinking smile, comfort smiley and the 2-bit advertising format, and byte 4
as a signed 8-bit value divided by 10 into the temperature offset. -/
theorem C5_settings_decode_bits (st : SettingsState) (p : List Nat) (h : 13 ≤ p.length) :
    ((notifySettingsCallback st p).settings.lp_measures = (p.getD 2 0 &&& 0x80 != 0)) ∧
    ((notifySettingsCallback st p).settings.tx_measures = (p.getD 2 0 &&& 0x40 != 0)) ∧
    ((notifySettingsCallback st p).settings.show_battery = (p.getD 2 0 &&& 0x20 != 0)) ∧
    ((notifySettingsCallback st p).settings.temp_F_or_C = (p.getD 2 0 &&& 0x10 != 0)) ∧
    ((notifySettingsCallback st p).settings.blinking_time_smile = (p.getD 2 0 &&& 0x08 != 0)) ∧
    ((notifySettingsCallback st p).settings.comfort_smiley = (p.getD 2 0 &&& 0x04 != 0)) ∧
    ((notifySettingsCallback st p).settings.advertising_type = p.getD 2 0 &&& 0x03) ∧
    ((notifySettingsCallback st p).settings.temp_offset = (i8ofNat (p.getD 4 0) : ℚ) / 10) := by
  have hset : (notifySettingsCallback st p).settings = settingsFromResponse st.settings p := by
    simp only [notifySettingsCallback]
    rw [if_neg (by omega), if_neg (by omega)]
  rw [hset]
  exact ⟨rfl, rfl, rfl, rfl, rfl, rfl, rfl, rfl⟩

/-- C5 witness: the response [0x55, 0x0A, 0x90, 0x00, 0xFC, ...] decodes
low power true, fahrenheit true and temperature offset -0.4. -/
theorem C5_settings_decode_bits_witness :
    (notifySettingsCallback ⟨exampleSettings, false, false⟩
        [0x55, 0x0A, 0x90, 0x00, 0xFC, 0, 0, 0, 0, 0, 0, 0, 0]).settings.lp_measures = true ∧
    (notifySettingsCallback ⟨exampleSettings, false, false⟩
        [0x55, 0x0A, 0x90, 0x00, 0xFC, 0, 0, 0, 0, 0, 0, 0, 0]).settings.temp_F_or_C = true ∧
    (notifySettingsCallback ⟨exampleSettings, false, false⟩
        [0x55, 0x0A, 0x90, 0x00, 0xFC, 0, 0, 0, 0, 0, 0, 0, 0]).settings.temp_offset = -0.4 :=
  ⟨(C5_settings_decode_bits ⟨exampleSettings, false, false⟩
      [0x55, 0x0A, 0x90, 0x00, 0xFC, 0, 0, 0, 0, 0, 0, 0, 0] (by decide)).1.trans (by decide),
    (C5_settings_decode_bits ⟨exampleSettings, false, false⟩
      [0x55, 0x0A, 0x90, 0x00, 0xFC, 0, 0, 0, 0, 0, 0, 0, 0]
      (by decide)).2.2.2.1.trans (by decide),
    (C5_settings_decode_bits ⟨exampleSettings, false, false⟩
      [0x55, 0x0A, 0x90, 0x00, 0xFC, 0, 0, 0, 0, 0, 0, 0, 0]
      (by decide)).2.2.2.2.2.2.2.trans (by decide)⟩

lemma byte2_recompose : ∀ n < 256,
    (((n &&& 0x80 != 0 : Bool).toNat <<< 7) ||| ((n &&& 0x40 != 0 : Bool).toNat <<< 6) |||
      ((n &&& 0x20 != 0 : Bool).toNat <<< 5) ||| ((n &&& 0x10 != 0 : Bool).toNat <<< 4) |||
      ((n &&& 0x08 != 0 : Bool).toNat <<< 3) ||| ((n &&& 0x04 != 0 : Bool).toNat <<< 2) |||
      (n &&& 0x03)) % 256 = n := by
  decide

lemma byte3_recompose : ∀ n < 256,
    (((n &&& 0x80 != 0 : Bool).toNat <<< 7) ||| ((n &&& 0x40 != 0 : Bool).toNat <<< 6) |||
      ((n &&& 0x20 != 0 : Bool).toNat <<< 5) ||| ((n &&& 0x10 != 0 : Bool).toNat <<< 4) |||
      ((n &&& 0x08 != 0 : Bool).toNat <<< 3) ||| (n &&& 0x07)) % 256 = n := by
  decide

lemma u8_tenths_roundtrip : ∀ n < 256, u8ofRat ((i8ofNat n : ℚ) / 10 * 10) = n := by
  decide

/-- C4 counterexample: the 13-byte response with byte 11 equal to 1 and byte
12 equal to 0 decodes and re-encodes into a payload whose byte 11 is 0, so
encode after decode does not reproduce response byte 11 (the hardware
version): byte 11 of the write payload carries the averaging steps taken
from response byte 12. -/
theorem C4_counterexample_byte11 :
    (parseSettings (notifySettingsCallback ⟨exampleSettings, false, false⟩
        [0x55, 0x0A, 0, 0, 0, 0, 0, 0, 0, 0, 0, 1, 0]).settings).getD 11 0 = 0 ∧
    ([0x55, 0x0A, 0, 0, 0, 0, 0, 0, 0, 0, 0, 1, 0] : List Nat).getD 11 0 = 1 := by
  decide

/-- C4 amended: parseSettings always yields 12 bytes with byte 0 = 0x55,
byte 1 = 0x0A and bytes 4 and 5 the offsets scaled by 10 and truncated to a
signed byte; for every byte response of length at least 13, encode after
decode reproduces bytes 2 and 3 (flags, advertising format, smiley) and the
raw step and enum bytes 6..10 bit-exactly at their positions, reproduces
bytes 4 and 5 exactly because the decoded offsets are exact multiples of one
tenth, and writes the averaging steps decoded from response byte 12 into
payload byte 11 (response byte 11, the read-only hardware version, is not
part of the write payload). -/
theorem C4_amended_encode_decode (s : ATC_MiThermometer_Settings) (st : SettingsState)
    (p : List Nat) (hlen : 13 ≤ p.length) (hb : IsByteList p) :
    ((parseSettings s).length = 12 ∧
      (parseSettings s).getD 0 0 = 0x55 ∧
      (parseSettings s).getD 1 0 = 0x0A ∧
      (parseSettings s).getD 4 0 = u8ofRat (s.temp_offset * 10) ∧
      (parseSettings s).getD 5 0 = u8ofRat (s.humidity_offset * 10)) ∧
    ((parseSettings (notifySettingsCallback st p).settings).getD 2 0 = p.getD 2 0 ∧
      (parseSettings (notifySettingsCallback st p).settings).getD 3 0 = p.getD 3 0 ∧
      (parseSettings (notifySettingsCallback st p).settings).getD 4 0 = p.getD 4 0 ∧
      (parseSettings (notifySettingsCallback st p).settings).getD 5 0 = p.getD 5 0 ∧
      (parseSettings (notifySettingsCallback st p).settings).getD 6 0 = p.getD 6 0 ∧
      (parseSettings (notifySettingsCallback st p).settings).getD 7 0 = p.getD 7 0 ∧
      (parseSettings (notifySettingsCallback st p).settings).getD 8 0 = p.getD 8 0 ∧
      (parseSettings (notifySettingsCallback st p).settings).getD 9 0 = p.getD 9 0 ∧
      (parseSettings (notifySettingsCallback st p).settings).getD 10 0 = p.getD 10 0 ∧
      (parseSettings (notifySettingsCallback st p).settings).getD 11 0 = p.getD 12 0) := by
  refine ⟨⟨rfl, rfl, rfl, rfl, rfl⟩, ?_⟩
  have hset : (notifySettingsCallback st p).settings = settingsFromResponse st.settings p := by
    simp only [notifySettingsCallback]
    rw [if_neg (by omega), if_neg (by omega)]
  rw [hset]
  have h2 := getD_lt_of_byteList hb (show 2 < p.length by omega)
  have h3 := getD_lt_of_byteList hb (show 3 < p.length by omega)
  have h4 := getD_lt_of_byteList hb (show 4 < p.length by omega)
  have h5 := getD_lt_of_byteList hb (show 5 < p.length by omega)
  have h8 := getD_lt_of_byteList hb (show 8 < p.length by omega)
  exact ⟨byte2_recompose _ h2, byte3_recompose _ h3, u8_tenths_roundtrip _ h4,
    u8_tenths_roundtrip _ h5, rfl, rfl, Nat.mod_eq_of_lt h8, rfl, rfl, rfl⟩

/-- C4 amended witness: a concrete 13-byte response whose bytes 2..5 and 8
come back bit-exactly from encode after decode, and whose byte 12 lands in
payload byte 11. -/
theorem C4_amended_encode_decode_witness :
    (parseSettings (notifySettingsCallback ⟨exampleSettings, false, false⟩
        [0x55, 0x0A, 0xFF, 0x5A, 0x15, 0xF6, 7, 8, 9, 10, 11, 12, 13]).settings).getD 2 0 =
      0xFF ∧
    (parseSettings (notifySettingsCallback ⟨exampleSettings, false, false⟩
        [0x55, 0x0A, 0xFF, 0x5A, 0x15, 0xF6, 7, 8, 9, 10, 11, 12, 13]).settings).getD 4 0 =
      0x15 ∧
    (parseSettings (notifySettingsCallback ⟨exampleSettings, false, false⟩
        [0x55, 0x0A, 0xFF, 0x5A, 0x15, 0xF6, 7, 8, 9, 10, 11, 12, 13]).settings).getD 5 0 =
      0xF6 ∧
    (parseSettings (notifySettingsCallback ⟨exampleSettings, false, false⟩
        [0x55, 0x0A, 0xFF, 0x5A, 0x15, 0xF6, 7, 8, 9, 10, 11, 12, 13]).settings).getD 8 0 =
      9 ∧
    (parseSettings (notifySettingsCallback ⟨exampleSettings, false, false⟩
        [0x55, 0x0A, 0xFF, 0x5A, 0x15, 0xF6, 7, 8, 9, 10, 11, 12, 13]).settings).getD 11 0 =
      13 :=
  ⟨((C4_amended_encode_decode exampleSettings ⟨exampleSettings, false, false⟩
        [0x55, 0x0A, 0xFF, 0x5A, 0x15, 0xF6, 7, 8, 9, 10, 11, 12, 13]
        (by decide) (by decide)).2.1).trans (by decide),
    ((C4_amended_encode_decode exampleSettings ⟨exampleSettings, false, false⟩
        [0x55, 0x0A, 0xFF, 0x5A, 0x15, 0xF6, 7, 8, 9, 10, 11, 12, 13]
        (by decide) (by decide)).2.2.2.1).trans (by decide),
    ((C4_amended_encode_decode exampleSettings ⟨exampleSettings, false, false⟩
        [0x55, 0x0A, 0xFF, 0x5A, 0x15, 0xF6, 7, 8, 9, 10, 11, 12, 13]
        (by decide) (by decide)).2.2.2.2.1).trans (by decide),
    ((C4_amended_encode_decode exampleSettings ⟨exampleSettings, false, false⟩
        [0x55, 0x0A, 0xFF, 0x5A, 0x15, 0xF6, 7, 8, 9, 10, 11, 12, 13]
        (by decide) (by decide)).2.2.2.2.2.2.2.1).trans (by decide),
    ((C4_amended_encode_decode exampleSettings ⟨exampleSettings, false, false⟩
        [0x55, 0x0A, 0xFF, 0x5A, 0x15, 0xF6, 7, 8, 9, 10, 11, 12, 13]
        (by decide) (by decide)).2.2.2.2.2.2.2.2.2.2).trans (by decide)⟩

/-- C10: the two revisions of parseSettings disagree.  On the settings
record with temperature offset 1.5 the top-level revision writes byte 4 =
10, because its source casts the float to uint8_t before multiplying by 10,
while the newer revision writes byte 4 = 15 by multiplying first, as the
settings decoder (offset = byte / 10) and the documented encoding (offset
scaled by 10, then truncated) require; so the payloads differ. -/
theorem C10_revisions_diverge_offsets :
    (parseSettingsV1 { exampleSettings with temp_offset := 3 / 2 }).getD 4 0 = 10 ∧
    (parseSettings { exampleSettings with temp_offset := 3 / 2 }).getD 4 0 = 15 ∧
    parseSettingsV1 { exampleSettings with temp_offset := 3 / 2 } ≠
      parseSettings { exampleSettings with temp_offset := 3 / 2 } := by
  decide

/-- First entry of the dBm-to-code std::map of
ATC_MiThermometer::setRfTxPowerdBm: std::map stores its keys in ascending
order, and -50 dBm is the smallest key. -/
def powerMapHead : ℚ × Nat := (-50, 128)

/-- The remaining 51 entries of the dBm-to-code map in ascending key order.
The second component of each pair is the numeric value of the RF_TX_Power
enum constant the source maps the key to. -/
def powerMapTail : List (ℚ × Nat) :=
  [(-30, 255), (-25.18, 130), (-19.27, 132), (-15.88, 134), (-13.29, 136),
   (-11.4, 138), (-9.89, 140), (-8.65, 142), (-7.65, 144), (-6.67, 146),
   (-5.81, 148), (-5.03, 150), (-4.26, 152), (-3.61, 154), (-3.03, 156),
   (-2.48, 158), (-1.89, 160), (-1.42, 162), (-0.97, 164), (-0.14, 168),
   (0.04, 169), (0.58, 172), (0.90, 174), (1.17, 176), (1.45, 178),
   (1.73, 180), (1.99, 182), (2.39, 185), (2.61, 187), (2.81, 189),
   (3.01, 191), (3.23, 23), (3.94, 25), (4.57, 27), (5.13, 29),
   (5.65, 31), (6.14, 33), (6.60, 35), (7.02, 37), (7.41, 39),
   (7.79, 41), (8.13, 43), (8.44, 45), (8.73, 47), (8.97, 49),
   (9.24, 51), (9.48, 53), (9.81, 56), (10.01, 58), (10.29, 61),
   (10.46, 63)]

/-- The whole 52-entry power map in std::map iteration order. -/
def powerMap : List (ℚ × Nat) := powerMapHead :: powerMapTail

/-- std::min_element over the map with the comparator of setRfTxPowerdBm:
the first entry is the initial candidate, and each later entry replaces it
only when its absolute dBm difference to the requested power is strictly
smaller, so the first minimal entry in iteration order wins. -/
def minElement (power : ℚ) : List (ℚ × Nat) → ℚ × Nat → ℚ × Nat
  | [], best => best
  | p :: rest, best =>
    minElement power rest (if |p.1 - power| < |best.1 - power| then p else best)

/-- The RF_TX_Power code ATC_MiThermometer::setRfTxPowerdBm selects for a
requested dBm value and then pushes through setRfTxPower. -/
def setRfTxPowerdBm_code (power : ℚ) : Nat :=
  (minElement power powerMapTail powerMapHead).2

/-- ATC_MiThermometer::getRfTxPowerdBm: the code-to-dBm switch, one case per
RF_TX_Power enum constant, defaulting to 0 for unknown codes. -/
def getRfTxPowerdBm (code : Nat) : ℚ :=
  if code = 191 then 3.01
  else if code = 189 then 2.81
  else if code = 187 then 2.61
  else if code = 185 then 2.39
  else if code = 182 then 1.99
  else if code = 180 then 1.73
  else if code = 178 then 1.45
  else if code = 176 then 1.17
  else if code = 174 then 0.90
  else if code = 172 then 0.58
  else if code = 169 then 0.04
  else if code = 168 then -0.14
  else if code = 164 then -0.97
  else if code = 162 then -1.42
  else if code = 160 then -1.89
  else if code = 158 then -2.48
  else if code = 156 then -3.03
  else if code = 154 then -3.61
  else if code = 152 then -4.26
  else if code = 150 then -5.03
  else if code = 148 then -5.81
  else if code = 146 then -6.67
  else if code = 144 then -7.65
  else if code = 142 then -8.65
  else if code = 140 then -9.89
  else if code = 138 then -11.4
  else if code = 136 then -13.29
  else if code = 134 then -15.88
  else if code = 132 then -19.27
  else if code = 130 then -25.18
  else if code = 255 then -30
  else if code = 128 then -50
  else if code = 63 then 10.46
  else if code = 61 then 10.29
  else if code = 58 then 10.01
  else if code = 56 then 9.81
  else if code = 53 then 9.48
  else if code = 51 then 9.24
  else if code = 49 then 8.97
  else if code = 47 then 8.73
  else if code = 45 then 8.44
  else if code = 43 then 8.13
  else if code = 41 then 7.79
  else if code = 39 then 7.41
  else if code = 37 then 7.02
  else if code = 35 then 6.60
  else if code = 33 then 6.14
  else if code = 31 then 5.65
  else if code = 29 then 5.13
  else if code = 27 then 4.57
  else if code = 25 then 3.94
  else if code = 23 then 3.23
  else 0

lemma minElement_mem (power : ℚ) (l : List (ℚ × Nat)) (best : ℚ × Nat) :
    minElement power l best = best ∨ minElement power l best ∈ l := by
  induction l generalizing best with
  | nil => exact Or.inl rfl
  | cons p rest ih =>
    simp only [minElement]
    rcases ih (if |p.1 - power| < |best.1 - power| then p else best) with h | h
    · rw [h]
      split
      · exact Or.inr (List.mem_cons_self ..)
      · exact Or.inl rfl
    · exact Or.inr (List.mem_cons_of_mem _ h)

lemma minElement_min (power : ℚ) (l : List (ℚ × Nat)) (best : ℚ × Nat) :
    ∀ q, (q = best ∨ q ∈ l) →
      |(minElement power l best).1 - power| ≤ |q.1 - power| := by
  induction l generalizing best with
  | nil =>
    rintro q (rfl | hq)
    · exact le_refl _
    · cases hq
  | cons p rest ih =>
    simp only [minElement]
    have hbest : |(if |p.1 - power| < |best.1 - power| then p else best).1 - power| ≤
        |best.1 - power| := by
      split
      · next hlt => exact le_of_lt hlt
      · exact le_refl _
    have hp : |(if |p.1 - power| < |best.1 - power| then p else best).1 - power| ≤
        |p.1 - power| := by
      split
      · exact le_refl _
      · next hnlt => exact le_of_not_lt hnlt
    rintro q (rfl | hq)
    · exact le_trans (ih _ _ (Or.inl rfl)) hbest
    · rcases List.mem_cons.mp hq with rfl | hq2
      · exact le_trans (ih _ _ (Or.inl rfl)) hp
      · exact ih _ _ (Or.inr hq2)

lemma powerMap_consistent : ∀ p ∈ powerMap, getRfTxPowerdBm p.2 = p.1 := by decide

lemma powerMap_keys_nodup : (powerMap.map Prod.fst).Nodup := by decide

/-- C9 counterexample: the RF TX power table of the source has 52 entries,
not 51 as the claim asserts for both the nearest-neighbour quantification
and the exact-match quantification. -/
theorem C9_counterexample_table_size : powerMap.length = 52 ∧ powerMap.length ≠ 51 := by
  decide

/-- C9 amended: the table has 52 entries; for every requested dBm value x
the code selected by setRfTxPowerdBm is that of a table entry whose dBm
value has the smallest absolute difference to x among all 52 entries, and
getRfTxPowerdBm maps that code back to that nearest dBm value; for x equal
to one of the 52 table values the exact matching entry is selected. -/
theorem C9_amended_nearest_code (x : ℚ) :
    powerMap.length = 52 ∧
    (∃ p ∈ powerMap, setRfTxPowerdBm_code x = p.2 ∧ getRfTxPowerdBm p.2 = p.1 ∧
      ∀ q ∈ powerMap, |p.1 - x| ≤ |q.1 - x|) ∧
    (∀ p ∈ powerMap, x = p.1 → setRfTxPowerdBm_code x = p.2) := by
  have hmem : minElement x powerMapTail powerMapHead ∈ powerMap := by
    rcases minElement_mem x powerMapTail powerMapHead with h | h
    · rw [h]
      exact List.mem_cons_self ..
    · exact List.mem_cons_of_mem _ h
  have hmin : ∀ q ∈ powerMap, |(minElement x powerMapTail powerMapHead).1 - x| ≤ |q.1 - x| := by
    intro q hq
    rcases List.mem_cons.mp hq with h | hq2
    · rw [h]
      exact minElement_min x powerMapTail powerMapHead powerMapHead (Or.inl rfl)
    · exact minElement_min x powerMapTail powerMapHead q (Or.inr hq2)
  refine ⟨rfl, ⟨_, hmem, rfl, powerMap_consistent _ hmem, hmin⟩, ?_⟩
  intro p hp hxp
  have h0 : |(minElement x powerMapTail powerMapHead).1 - x| ≤ 0 := by
    have hx := hmin p hp
    rw [← hxp] at hx
    simpa using hx
  have h1 : (minElement x powerMapTail powerMapHead).1 = x := by
    have habs := abs_nonneg ((minElement x powerMapTail powerMapHead).1 - x)
    have hz := abs_eq_zero.mp (le_antisymm h0 habs)
    linarith
  have h2 : minElement x powerMapTail powerMapHead = p :=
    List.inj_on_of_nodup_map powerMap_keys_nodup hmem hp (by rw [h1, hxp])
  show (minElement x powerMapTail powerMapHead).2 = p.2
  rw [h2]

/-- C9 amended witness: 3.01 dBm and -11.4 dBm are table values and map to
their exact codes 191 and 138, and getRfTxPowerdBm maps 191 back to 3.01;
for the non-table input 0 dBm the selected code belongs to a table entry of
minimal absolute dBm difference. -/
theorem C9_amended_nearest_code_witness :
    setRfTxPowerdBm_code 3.01 = 191 ∧ setRfTxPowerdBm_code (-11.4) = 138 ∧
    getRfTxPowerdBm 191 = 3.01 ∧
    (∃ p ∈ powerMap, setRfTxPowerdBm_code 0 = p.2 ∧ getRfTxPowerdBm p.2 = p.1 ∧
      ∀ q ∈ powerMap, |p.1 - 0| ≤ |q.1 - 0|) :=
  ⟨(C9_amended_nearest_code 3.01).2.2 (3.01, 191) (by decide) rfl,
    (C9_amended_nearest_code (-11.4)).2.2 (-11.4, 138) (by decide) rfl,
    by decide,
    (C9_amended_nearest_code 0).2.1⟩

/-- C2: the top-level revision's setLowPowerMeasures violates the claim: it
assigns the new value to the cached member instead of the copied record and
pushes the unmodified copy, so the pushed 12-byte record equals the current
cached settings with no field replaced and the new value never reaches the
wire.  At the all-zero cached record and new value true, the pushed record
is the cached record itself, its low-power bit in wire byte 2 is still 0,
and only the cache is mutated; the newer revision of the same setter pushes
the record with exactly the low-power field replaced, as the claim states
and as every other setter of both revisions does. -/
theorem C2_lowpower_setter_pushes_unmutated (s : ATC_MiThermometer_Settings) (v : Bool) :
    ((setLowPowerMeasuresV1 s v).1 = s ∧
      sendSettings_wire (setLowPowerMeasuresV1 s v).1 = parseSettings s ∧
      (setLowPowerMeasuresV1 s v).2 = { s with lp_measures := v }) ∧
    (setLowPowerMeasures s v = { s with lp_measures := v } ∧
      sendSettings_wire (setLowPowerMeasures s v) =
        parseSettings { s with lp_measures := v }) ∧
    ((setLowPowerMeasuresV1 exampleSettings true).1.lp_measures = false ∧
      (sendSettings_wire (setLowPowerMeasuresV1 exampleSettings true).1).getD 2 0 = 0 ∧
      (sendSettings_wire (setLowPowerMeasures exampleSettings true)).getD 2 0 = 128) :=
  ⟨⟨rfl, rfl, rfl⟩, ⟨rfl, rfl⟩, by decide⟩
